import Mathlib

/-
  Verification development for the billmart_chatbot repository.

  Shallow embedding of the conversation-state tracker
  (src/actions/minimal_state.py) and of the fallback-answer pipelines
  (src/llm_fallback.py, src/dynamic_rag_fallback.py,
  src/dynamic_llm_fallback.py, src/actions/llm_fallback_http.py).

  External dependencies (ChromaDB retrieval, the SarvamAI generation
  backend, HTTP

 transport) are modelled as explicit function parameters;
  the Python code of this repository is translated directly.
  Strings are modelled as Lean strings (lists of code points), which
  matches Python's per-code-point length/slicing semantics on the
  ASCII/BMP inputs used here.
-/

/- ===================== String helpers =====================
   Python string primitives used by the source, modelled over the
   code-point list of a string. -/

/-- Model of checking that `pat` is a prefix of `s` (code-point wise). -/
def isPrefixChars : List Char → List Char → Bool
  | [], _ => true
  | _ :: _, [] => false
  | a :: as, b :: bs => a == b && isPrefixChars as bs

/-- Model of Python's substring test for lists of code points:
`isInfixChars pat s` is `pat in s`. -/
def isInfixChars (pat : List Char) : List Char → Bool
  | [] => pat.isEmpty
  | c :: rest => isPrefixChars pat (c :: rest) || isInfixChars pat rest

/-- Model of Python's `pat in hay` on strings. -/
def containsSub (hay pat : String) : Bool :=
  isInfixChars pat.data hay.data

/-- Model of Python's `str.lower()` (ASCII range, which covers every
keyword and test input of the repository). -/
def lowerStr (s : String) : String :=
  ⟨s.data.map Char.toLower⟩

/-- Model of Python slicing `s[:n]` (by code points). -/
def strTake (s : String) (n : Nat) : String :=
  ⟨s.data.take n⟩

/-- Model of Python's `len(s)` (by code points). -/
def strLen (s : String) : Nat :=
  s.data.length

/-- Whitespace as removed by Python's `str.strip()` on the ASCII inputs
used in the repository. -/
def isSpaceChar (c : Char) : Bool :=
  c == ' ' || c == '\t' || c == '\n' || c == '\r'

/-- Model of Python's `str.strip()`. -/
def strTrim (s : String) : String :=
  ⟨((s.data.dropWhile isSpaceChar).reverse.dropWhile isSpaceChar).reverse⟩

/-- Model of Python's `str.split(sep)` for a one-character separator. -/
def splitOnCharAux (sep : Char) : List Char → List Char → List (List Char)
  | [], acc => [acc.reverse]
  | c :: rest, acc =>
    if c == sep then acc.reverse :: splitOnCharAux sep rest []
    else splitOnCharAux sep rest (c :: acc)

/-- Model of Python's `s.split(sep)` for a one-character separator. -/
def splitOnChar (sep : Char) (s : String) : List String :=
  (splitOnCharAux sep s.data []).map (fun l => ⟨l⟩)

/-- Model of Python's `sep.join(parts)`. -/
def joinWith (sep : String) : List String → String
  | [] => ""
  | [x] => x
  | x :: xs => x ++ sep ++ joinWith sep xs

/-- Model of Python's `enumerate(l, i)`. -/
def enumFrom {α : Type} (i : Nat) : List α → List (Nat × α)
  | [] => []
  | x :: xs => (i, x) :: enumFrom (i + 1) xs

/-- Leftmost non-overlapping replacement over code points; the fuel is
always at least the length of the remaining input, so it never runs out. -/
def replaceAllAux : Nat → List Char → List Char → List Char → List Char
  | 0, s, _, _ => s
  | _ + 1, [], _, _ => []
  | fuel + 1, c :: rest, pat, rep =>
    if isPrefixChars pat (c :: rest) && !pat.isEmpty then
      rep ++ replaceAllAux fuel (List.drop pat.length (c :: rest)) pat rep
    else
      c :: replaceAllAux fuel rest pat rep

/-- Model of Python's `s.replace(pat, rep)` (leftmost non-overlapping
occurrences, for the non-empty patterns used by the source). -/
def pyReplace (s pat rep : String) : String :=
  ⟨replaceAllAux (s.data.length + 1) s.data pat.data rep.data⟩

/- ===================== Conversation state =====================
   From src/actions/minimal_state.py. -/

/-- Enumeration for user categories (class `UserType`). -/
inductive UserType where
  | individual
  | business
  | lender
  | unknown
deriving DecidableEq, Repr

/-- The `value` string of each `UserType` member. -/
def UserType.val : UserType → String
  | .individual => "individual"
  | .business => "business"
  | .lender => "lender"
  | .unknown => "unknown"

/-- Model of the partial enum constructor `UserType(s)`: `none` models a
raised `ValueError`. -/
def UserType.fromStr : String → Option UserType
  | "individual" => some .individual
  | "business" => some .business
  | "lender" => some .lender
  | "unknown" => some .unknown
  | _ => none

/-- Tracks where the user is in their journey (class `ConversationPhase`). -/
inductive ConversationPhase where
  | initial
  | exploring
  | focused
  | process
  | applying
deriving DecidableEq, Repr

/-- The `value` string of each `ConversationPhase` member. -/
def ConversationPhase.val : ConversationPhase → String
  | .initial => "initial"
  | .exploring => "exploring"
  | .focused => "focused"
  | .process => "process"
  | .applying => "applying"

/-- Model of the partial enum constructor `ConversationPhase(s)`. -/
def ConversationPhase.fromStr : String → Option ConversationPhase
  | "initial" => some .initial
  | "exploring" => some .exploring
  | "focused" => some .focused
  | "process" => some .process
  | "applying" => some .applying
  | _ => none

/-- Dataclass `MinimalConversationState`. -/
structure MinimalConversationState where
  user_type : UserType := .unknown
  product_focus : Option String := none
  conversation_phase : ConversationPhase := .initial
  last_intent : Option String := none
deriving DecidableEq, Repr

/-- Shape of the dictionary produced by `to_dict` and consumed by
`from_dict`: the four keys, with the enum fields as plain strings. -/
structure SerializedState where
  user_type : String
  product_focus : Option String
  conversation_phase : String
  last_intent : Option String
deriving DecidableEq, Repr

/-- Method `MinimalConversationState.to_dict`. -/
def to_dict (st : MinimalConversationState) : SerializedState :=
  { user_type := st.user_type.val
    product_focus := st.product_focus
    conversation_phase := st.conversation_phase.val
    last_intent := st.last_intent }

/-- Method `MinimalConversationState.from_dict`; `none` models the
`ValueError` raised by `UserType(...)` / `ConversationPhase(...)` on a
string outside the enum values. -/
def from_dict (d : SerializedState) : Option MinimalConversationState :=
  match UserType.fromStr d.user_type, ConversationPhase.fromStr d.conversation_phase with
  | some u, some p =>
    some { user_type := u
           product_focus := d.product_focus
           conversation_phase := p
           last_intent := d.last_intent }
  | _, _ => none

/- ===================== Keyword tables ===================== -/

/-- `ConversationStateManager.PRODUCT_KEYWORDS`, in the source's
insertion order (Python dicts preserve insertion order, and `max` over
the items returns the first maximal entry in that order). -/
def PRODUCT_KEYWORDS : List (String × List String) :=
  [ ("gigcash",
      ["gigcash", "gig cash", "gig-cash", "gig", "gog",
       "freelancer", "contractor", "independent contractor",
       "zomato", "uber", "swiggy", "ola", "dunzo", "rapido",
       "delivery", "driver", "gig worker", "gig work"]),
    ("empcash",
      ["empcash", "emp cash", "emp-cash",
       "salary", "employee", "salaried", "payroll", "advance",
       "salary advance", "salary loan", "employee advance",
       "full time", "permanent", "company employee"]),
    ("scf",
      ["scf", "supply chain finance", "supply chain financing",
       "business", "SME", "MSME", "company", "corporate",
       "invoice", "bill", "vendor", "dealer", "supplier",
       "bill discounting", "invoice financing", "working capital"]),
    ("icf",
      ["icf", "insurance claim finance", "insurance claim financing",
       "hospital", "medical", "healthcare", "clinic", "nursing home",
       "insurance", "claim", "TPA", "cashless", "reimbursement"]),
    ("imark",
      ["imark", "i-mark", "i mark",
       "credit rating", "credit score", "credit grading", "rating",
       "creditworthiness", "credit assessment", "financial rating",
       "business rating", "company rating", "MSME rating"]),
    ("short_term_loan",
      ["short term loan", "short-term loan", "BEST loan", "best loan",
       "quick loan", "immediate loan", "urgent loan", "fast loan",
       "small loan", "emergency loan", "instant loan",
       "urgent money", "quick cash", "immediate funding"]),
    ("term_loan",
      ["term loan", "long term loan", "long-term loan",
       "business loan", "expansion loan", "equipment loan",
       "machinery loan", "growth loan", "capital loan",
       "fixed term", "installment loan", "EMI loan"]),
    ("lrd",
      ["lrd", "lease rental discounting", "lease rental financing",
       "lease", "rental", "rent", "property", "real estate",
       "commercial property", "office lease", "shop lease",
       "lease finance", "rental finance", "property finance"]),
    ("lender_services",
      ["lender", "NBFC", "bank", "financial institution",
       "finance company", "lending partner",
       "invest", "investment", "funding partner", "capital",
       "finance partner", "loan provider", "funding opportunity",
       "partnership", "deal flow", "investment opportunity",
       "lending opportunity", "portfolio"]) ]

/-- `ConversationStateManager.USER_TYPE_KEYWORDS`. -/
def USER_TYPE_KEYWORDS : List (String × List String) :=
  [ ("individual",
      ["individual", "person", "personal", "me", "myself",
       "employee", "worker", "freelancer", "gig worker"]),
    ("business",
      ["business", "company", "firm", "organization", "enterprise",
       "SME", "MSME", "startup", "corporate", "merchant", "family business"]),
    ("lender",
      ["lender", "NBFC", "bank", "investor", "financier",
       "financial institution", "funding partner", "capital provider", "want to invest"]) ]

/-- `ConversationStateManager.INTENT_PHASE_MAP`. -/
def INTENT_PHASE_MAP : List (String × ConversationPhase) :=
  [ ("ask_process", .process),
    ("ask_eligibility", .focused),
    ("ask_apply", .applying),
    ("ask_info", .exploring) ]

/-- Python `sum(1 for keyword in keywords if keyword in message_lower)`;
the keywords are matched as written (NOT lowercased) against the
lowercased message, exactly as in `_detect_product_from_message`. -/
def countMatches (messageLower : String) (keywords : List String) : Nat :=
  keywords.countP (fun k => containsSub messageLower k)

/-- The per-category scores computed by `_detect_product_from_message`
for a message, in the fixed dictionary order. -/
def scoresList (message : String) : List (String × Nat) :=
  PRODUCT_KEYWORDS.map (fun pk => (pk.1, countMatches (lowerStr message) pk.2))

/-- The maximal keyword score over all product categories. -/
def maxScore (message : String) : Nat :=
  ((scoresList message).map Prod.snd).foldr max 0

/-- Method `_detect_product_from_message`: Python keeps the categories
with positive score and takes `max(items, key=score)`, which returns the
FIRST maximal entry in dictionary insertion order; equivalently: `none`
when every score is zero, otherwise the first category whose score
equals the maximum. -/
def detect_product_from_message (message : String) : Option String :=
  if maxScore message = 0 then none
  else ((scoresList message).find? (fun ps => ps.2 == maxScore message)).map Prod.fst

/-- Method `_detect_user_type_from_message` (note: unlike the product
detector, the keyword is lowercased here). -/
def detect_user_type_from_message (message : String) : Option String :=
  let m := lowerStr message
  let typeScores :=
    (USER_TYPE_KEYWORDS.map
      (fun tk => (tk.1, tk.2.countP (fun k => containsSub m (lowerStr k))))).filter
      (fun ts => 0 < ts.2)
  ((typeScores.find? (fun ts =>
      ts.2 == (typeScores.map Prod.snd).foldr max 0)).map Prod.fst)

/-- The fixed category ordering: the keys of `PRODUCT_KEYWORDS` in
insertion order. -/
def catNames : List String :=
  PRODUCT_KEYWORDS.map Prod.fst

/-- The keyword list of one category (empty for an unknown category). -/
def productKeywords (cat : String) : List String :=
  ((PRODUCT_KEYWORDS.find? (fun pk => pk.1 == cat)).map Prod.snd).getD []

/-- The keyword-match score of one category on a message. -/
def catScore (message cat : String) : Nat :=
  countMatches (lowerStr message) (productKeywords cat)

/-- Model of Python's `s.startswith(pat)`. -/
def pyStartswith (s pat : String) : Bool :=
  isPrefixChars pat.data s.data

/-- The string the source derives from a declaration intent:
Python `intent_name.replace("declare_", "")`. -/
def declaredValue (intent_name : String) : String :=
  pyReplace intent_name "declare_" ""

/-- An entity as passed by Rasa (type/value pair); `update_from_intent`
never reads it. -/
def Entity : Type := String × String

/-- Method `ConversationStateManager.update_from_intent`, as a pure
state-transition function on the explicit state. -/
def update_from_intent (st : MinimalConversationState) (intent_name : String)
    (_entities : List Entity) (user_message : String) : MinimalConversationState :=
  let st1 :=
    if pyStartswith intent_name "declare_" then
      { st with user_type := (UserType.fromStr (declaredValue intent_name)).getD .unknown }
    else if intent_name == "ask_loan_need" then
      { st with user_type := .unknown }
    else st
  let st2 :=
    match detect_product_from_message user_message with
    | some p => { st1 with product_focus := some p }
    | none => st1
  let st3 :=
    match INTENT_PHASE_MAP.lookup intent_name with
    | some ph => { st2 with conversation_phase := ph }
    | none => st2
  { st3 with last_intent := some intent_name }

/- ===================== Helper lemmas ===================== -/

theorem le_foldr_max {l : List Nat} {x : Nat} (h : x ∈ l) : x ≤ l.foldr max 0 := by
  induction l with
  | nil => cases h
  | cons a t ih =>
    rcases List.mem_cons.mp h with rfl | h'
    · exact Nat.le_max_left _ _
    · exact (ih h').trans (Nat.le_max_right a _)

theorem foldr_max_zero_or_mem (l : List Nat) : l.foldr max 0 = 0 ∨ l.foldr max 0 ∈ l := by
  induction l with
  | nil => exact Or.inl rfl
  | cons a t ih =>
    rcases max_choice a (t.foldr max 0) with h | h
    · right; rw [List.foldr_cons, h]; exact List.mem_cons_self a t
    · rw [List.foldr_cons, h]
      rcases ih with h0 | hm
      · exact Or.inl h0
      · exact Or.inr (List.mem_cons_of_mem a hm)

theorem find?_isSome_of_mem {α : Type} (p : α → Bool) {a : α} :
    ∀ {l : List α}, a ∈ l → p a = true → ∃ b, l.find? p = some b := by
  intro l
  induction l with
  | nil => intro h; cases h
  | cons c t ih =>
    intro h hp
    cases hc : p c
    · rcases List.mem_cons.mp h with rfl | h'
      · rw [hp] at hc; cases hc
      · rcases ih h' hp with ⟨b, hb⟩
        exact ⟨b, by rw [List.find?_cons, hc]; exact hb⟩
    · exact ⟨c, by rw [List.find?_cons, hc]⟩

theorem find?_decomp {α : Type} {p : α → Bool} :
    ∀ {l : List α} {a : α}, l.find? p = some a →
      p a = true ∧ ∃ l1 l2, l = l1 ++ a :: l2 ∧ ∀ b ∈ l1, p b = false := by
  intro l
  induction l with
  | nil => intro a h; simp [List.find?] at h
  | cons c t ih =>
    intro a h
    cases hc : p c
    · rw [List.find?_cons, hc] at h
      rcases ih h with ⟨hp, l1, l2, hsplit, hall⟩
      refine ⟨hp, c :: l1, l2, by rw [hsplit]; rfl, ?_⟩
      intro b hb
      rcases List.mem_cons.mp hb with rfl | hb'
      · exact hc
      · exact hall b hb'
    · rw [List.find?_cons, hc] at h
      cases h
      refine ⟨hc, [], t, rfl, ?_⟩
      intro b hb; cases hb

theorem scores_eq (m : String) :
    scoresList m = catNames.map (fun c => (c, catScore m c)) := rfl

theorem catScore_le_maxScore (m : String) {W : String} (h : W ∈ catNames) :
    catScore m W ≤ maxScore m := by
  have h1 : (W, catScore m W) ∈ scoresList m := by
    rw [scores_eq]; exact List.mem_map.mpr ⟨W, h, rfl⟩
  exact le_foldr_max (List.mem_map.mpr ⟨_, h1, rfl⟩)

theorem catScore_zero_of_not_mem (m : String) {C : String} (h : C ∉ catNames) :
    catScore m C = 0 := by
  have hf : PRODUCT_KEYWORDS.find? (fun pk => pk.1 == C) = none := by
    rw [List.find?_eq_none]
    intro pk hpk hbeq
    exact h (List.mem_map.mpr ⟨pk, hpk, by simpa using hbeq⟩)
  simp [catScore, productKeywords, hf, countMatches]

theorem maxScore_le {m : String} {b : Nat} (h : ∀ W ∈ catNames, catScore m W ≤ b) :
    maxScore m ≤ b := by
  rcases foldr_max_zero_or_mem ((scoresList m).map Prod.snd) with h0 | hm
  · rw [maxScore, h0]; exact Nat.zero_le b
  · rw [maxScore]
    rcases List.mem_map.mp hm with ⟨x, hmem, hsnd⟩
    rw [scores_eq] at hmem
    rcases List.mem_map.mp hmem with ⟨c, hc, heq⟩
    rw [← hsnd, ← heq]
    exact h c hc

theorem detect_eq_none {m : String} (h : maxScore m = 0) :
    detect_product_from_message m = none := by
  simp [detect_product_from_message, h]

theorem detect_first_max (m : String) (h : 1 ≤ maxScore m) :
    ∃ Z L1 L2, detect_product_from_message m = some Z ∧ catScore m Z = maxScore m ∧
      catNames = L1 ++ Z :: L2 ∧ ∀ W ∈ L1, catScore m W ≠ maxScore m := by
  have hne : maxScore m ≠ 0 := by omega
  rcases foldr_max_zero_or_mem ((scoresList m).map Prod.snd) with h0 | hm
  · exact absurd h0 hne
  · rcases List.mem_map.mp hm with ⟨x, hmem, hsnd⟩
    have hp : (fun ps => ps.2 == maxScore m) x = true := by
      simpa using hsnd
    rcases find?_isSome_of_mem (fun ps => ps.2 == maxScore m) hmem hp with ⟨b, hb⟩
    rcases find?_decomp hb with ⟨hpb, l1, l2, hsplit, hall⟩
    have hb2 : b.2 = maxScore m := by simpa using hpb
    have hbmem : b ∈ scoresList m := by
      rw [hsplit]; exact List.mem_append_right _ (List.mem_cons_self _ _)
    rw [scores_eq] at hbmem
    rcases List.mem_map.mp hbmem with ⟨Z, hZ, hgZ⟩
    subst hgZ
    refine ⟨Z, l1.map Prod.fst, l2.map Prod.fst, ?_, ?_, ?_, ?_⟩
    · simp [detect_product_from_message, hne, hb]
    · simpa using hb2
    · have hmf : (scoresList m).map Prod.fst = catNames := by
        rw [scores_eq, List.map_map]
        exact List.map_id catNames
      rw [← hmf, hsplit]; simp
    · intro W hW
      rcases List.mem_map.mp hW with ⟨y, hy, hyf⟩
      subst hyf
      have hy' : y ∈ scoresList m := by
        rw [hsplit]; exact List.mem_append_left _ hy
      rw [scores_eq] at hy'
      rcases List.mem_map.mp hy' with ⟨c', hc', hgc⟩
      subst hgc
      have hfalse := hall _ hy
      simpa using hfalse

theorem detect_some_charac {m Z : String} (h : detect_product_from_message m = some Z) :
    Z ∈ catNames ∧ catScore m Z = maxScore m ∧ 1 ≤ maxScore m := by
  by_cases h0 : maxScore m = 0
  · rw [detect_eq_none h0] at h; cases h
  · have h1 : 1 ≤ maxScore m := Nat.one_le_iff_ne_zero.mpr h0
    rcases detect_first_max m h1 with ⟨Z', L1, L2, hd, hs, hcat, _⟩
    rw [hd] at h
    cases h
    refine ⟨?_, hs, h1⟩
    rw [hcat]
    exact List.mem_append_right _ (List.mem_cons_self _ _)

theorem update_product_focus (st : MinimalConversationState) (intent : String)
    (ents : List Entity) (msg : String) :
    (update_from_intent st intent ents msg).product_focus =
      match detect_product_from_message msg with
      | some p => some p
      | none => st.product_focus := by
  unfold update_from_intent
  cases hd : detect_product_from_message msg <;>
    cases hl : INTENT_PHASE_MAP.lookup intent <;>
      by_cases h1 : pyStartswith intent "declare_" = true <;>
        by_cases h2 : (intent == "ask_loan_need") = true <;>
          simp [h1, h2, hd, hl]

/- ===================== Retry wrapper =====================
   From src/llm_fallback.py, `retry_on_rate_limit` (lines 12-31). -/

/-- The decorator's error classification: Python checks for the
substrings 'rate limit' or '429' in `str(e).lower()`. -/
def isRateLimitError (e : String) : Bool :=
  containsSub (lowerStr e) "rate limit" || containsSub (lowerStr e) "429"

/-- Decidable equality of call outcomes (success value or exception
message). -/
instance : DecidableEq (Except String String) := fun
  | .ok a, .ok b =>
    if h : a = b then isTrue (by rw [h])
    else isFalse (by intro hc; cases hc; exact h rfl)
  | .ok _, .error _ => isFalse (by intro h; cases h)
  | .error _, .ok _ => isFalse (by intro h; cases h)
  | .error a, .error b =>
    if h : a = b then isTrue (by rw [h])
    else isFalse (by intro hc; cases hc; exact h rfl)

/-- Trace of one run of the retry wrapper: the final outcome (`.error`
models a raised exception), how many times the wrapped function was
invoked, and the sequence of waits slept before each retry. -/
structure RetryResult where
  result : Except String String
  calls : Nat
  waits : List Nat
deriving DecidableEq, Repr

/-- The terminal exception message raised after exhausting all attempts. -/
def maxRetriesMessage (maxRetries : Nat) : String :=
  "Max retries (" ++ toString maxRetries ++ ") exceeded due to rate limiting"

/-- The `for attempt in range(max_retries)` loop of the decorator: each
iteration invokes the wrapped function (modelled as a map from the
zero-based invocation index to its outcome); a rate-limited error sleeps
`wait` and multiplies the wait by 4; any other error re-raises at once. -/
def retryLoop (f : Nat → Except String String) (maxRetries : Nat) :
    Nat → Nat → Nat → List Nat → RetryResult
  | 0, _, calls, waits => ⟨.error (maxRetriesMessage maxRetries), calls, waits⟩
  | fuel + 1, wait, calls, waits =>
    match f calls with
    | .ok v => ⟨.ok v, calls + 1, waits⟩
    | .error e =>
      if isRateLimitError e then
        retryLoop f maxRetries fuel (wait * 4) (calls + 1) (waits ++ [wait])
      else ⟨.error e, calls + 1, waits⟩

/-- Decorator `retry_on_rate_limit(max_retries, initial_wait)` applied
to a fallible call (source defaults and the use at line 119 of
src/llm_fallback.py: `max_retries=5, initial_wait=15`). -/
def retry_on_rate_limit (maxRetries initialWait : Nat)
    (f : Nat → Except String String) : RetryResult :=
  retryLoop f maxRetries maxRetries initialWait 0 []

/- ===================== STATIC_RAG pipeline =====================
   From src/llm_fallback.py, class `BillMartRAGFallback`. -/

namespace LlmFallback

/-- The fixed message returned when retrieval yields no context
(line 268 of src/llm_fallback.py). -/
def noContextMessage : String :=
  "I can only provide information about BillMart's financial products. Please ask about our services like SCF, EmpCash, GigCash, ICF, or Term Loans."

/-- Method `create_domain_limited_prompt` (the context is clipped to its
first 800 code points, as `context[:800]`). -/
def create_domain_limited_prompt (query context : String) : String :=
  "You are BillMart FinTech's expert assistant.\n    Answer directly and concisely using the following context.\n    Do NOT include internal thoughts, explanations, or step-by-step reasoning.\n    Keep your answer under 150 words as much as possible -and focus on BillMart products and RBI regulations.\n\n    CONTEXT:\n    "
    ++ strTake context 800
    ++ "\n\n    QUERY: " ++ query
    ++ "\n    Provide a helpful, professional response focusing on BillMart products and services and their compliance and regulations"

/-- Method `generate_enhanced_rag_response`: the deterministic
context-based fallback used when the chat backend returns nothing. -/
def generate_enhanced_rag_response (query context : String) : String :=
  let query_lower := lowerStr query
  let intro :=
    if containsSub query_lower "rbi" && containsSub query_lower "scf" then
      "🏛️ RBI Regulations for Supply Chain Finance:"
    else if containsSub query_lower "empcash" || containsSub query_lower "gigcash" then
      "💰 Employee & Gig Worker Financing:"
    else if containsSub query_lower "eligibility" then
      "✅ Eligibility Requirements:"
    else if containsSub query_lower "loan" then
      "🏦 Loan Information:"
    else
      "📋 BillMart Financial Services:"
  let context_sentences :=
    ((splitOnChar '.' context).map strTrim).filter
      (fun s => !(s == "") && decide (20 < strLen s))
  let numbered :=
    (enumFrom 1 (context_sentences.take 3)).map
      (fun p => toString p.1 ++ ". " ++ strTrim p.2 ++ ".")
  joinWith "\n"
    ([intro, ""] ++ numbered ++
     ["", "💬 Need personalized assistance?", "📧 care@billmart.com",
      "📞 +91 93269 46663", "🌐 www.billmart.com"])

/-- Trace of one run of the STATIC_RAG entry point: the returned answer
plus how many times retrieval and the generation backend were invoked. -/
structure FallbackTrace where
  answer : String
  retrievalCalls : Nat
  generationCalls : Nat
deriving DecidableEq, Repr

/-- Method `generate_fallback_response` of `BillMartRAGFallback`
(src/llm_fallback.py lines 263-278), with the ChromaDB retrieval
(`retrieve_context`) and the retry-wrapped SarvamAI chat call
(`generate_with_sarvam_chat`, which returns `None` on its internally
caught failures) abstracted as function parameters. -/
def generate_fallback_response (retrieve : String → String)
    (chat : String → Option String) (query : String) : FallbackTrace :=
  let context := retrieve query
  if context == "" then
    ⟨noContextMessage, 1, 0⟩
  else
    match chat (create_domain_limited_prompt query context) with
    | some r => ⟨r, 1, 1⟩
    | none => ⟨generate_enhanced_rag_response query context, 1, 1⟩

end LlmFallback

/- ===================== DYNAMIC_LLM pipeline =====================
   From src/dynamic_llm_fallback.py, class `DynamicLLMSystem`. -/

namespace DynamicLlm

/-- The fixed out-of-domain keyword blocklist
(`DynamicLLMSystem.is_out_of_domain`, lines 19-27). -/
def out_of_domain_keywords : List String :=
  ["crypto", "bitcoin", "ethereum", "investment advice",
   "stock market", "share price", "mutual fund",
   "insurance policy", "life insurance", "travel"]

/-- Method `is_out_of_domain`: true iff some blocklist keyword is a
substring of the lowercased query. -/
def is_out_of_domain (query : String) : Bool :=
  out_of_domain_keywords.any (fun k => containsSub (lowerStr query) k)

/-- The fixed decline message of the rejection branch. -/
def declineMessage : String :=
  "I can only assist with queries related to BillMart products and regulatory compliance. For other topics, please consult appropriate specialists."

/-- The fixed message of the (unreachable-in-practice) no-sources branch. -/
def noSourcesMessage : String :=
  "I couldn't find relevant regulatory information. Please contact BillMart support."

/-- One result of `search_regulatory_sources`. -/
structure RawSource where
  title : String
  url : String
  snippet : String
  domain : String
  date_accessed : String
deriving DecidableEq, Repr

/-- Method `search_regulatory_sources`: fixed simulated regulatory
sources (the SEBI entry only when the query mentions securities terms);
`today` stands for `time.strftime('%Y-%m-%d')`. -/
def search_regulatory_sources (query today : String) : List RawSource :=
  let needs_sebi :=
    ["securities", "listed", "stock exchange", "ipo", "mutual fund"].any
      (fun t => containsSub (lowerStr query) t)
  let base_results : List RawSource :=
    [ { title := "RBI Digital Lending Guidelines 2024"
        url := "https://www.rbi.org.in/Scripts/NotificationUser.aspx?Id=12345"
        snippet := "RBI guidelines on " ++ query ++ " covering KYC, data localization, and compliance for NBFCs."
        domain := "rbi.org.in"
        date_accessed := today },
      { title := "MCA Guidelines for Digital Financial Services"
        url := "https://www.mca.gov.in/Ministry/pdf/Notification_12347.pdf"
        snippet := "MCA regulations for " ++ query ++ " affecting digital financial service providers."
        domain := "mca.gov.in"
        date_accessed := today } ]
  if needs_sebi then
    base_results ++
      [ { title := "SEBI Circular on Listed Entity Compliance"
          url := "https://www.sebi.gov.in/legal/circulars/aug-2024/circular_12346.html"
          snippet := "SEBI regulations for " ++ query ++ " affecting listed companies and securities."
          domain := "sebi.gov.in"
          date_accessed := today } ]
  else
    base_results

/-- Method `identify_regulatory_body`: fixed domain-to-regulator lookup
with a generic default. -/
def identify_regulatory_body (domain : String) : String :=
  if domain == "rbi.org.in" then "RBI"
  else if domain == "sebi.gov.in" then "SEBI"
  else if domain == "mca.gov.in" then "MCA"
  else "Regulatory Authority"

/-- One formatted citation of the response. -/
structure FormattedSource where
  id : Nat
  title : String
  url : String
  regulator : String
deriving DecidableEq, Repr

/-- Result of `generate_response_with_live_sources` plus invocation
counters for the source lookup and the generation backend ('rejected'
is absent from the non-rejection dicts, read back with `.get`, i.e.
false). -/
structure LiveResult where
  answer : String
  sources : List FormattedSource
  rejected : Bool
  searchCalls : Nat
  generationCalls : Nat
deriving DecidableEq, Repr

/-- The fixed head of the system prompt (line 111-121). -/
def system_prompt_head : String :=
  "You are BillMart's assistant. Answer briefly and directly.\n\nRules:\n- Use ONLY BillMart product info + provided sources\n- Give 1-2 sentences summary first\n- Then 2-3 key points maximum  \n- Include [Source X] citations\n- Max 200 words total\n- If not BillMart related, say \"Not my expertise\"\n\nContext: "

/-- Method `generate_response_with_live_sources`
(src/dynamic_llm_fallback.py lines 67-153), with the SarvamAI chat call
abstracted as a function of the system prompt and the user query
(`.error e` models a raised exception with message `e`); the pure
timestamp metadata field is omitted. -/
def generate_response_with_live_sources
    (chat : String → String → Except String String)
    (today query : String) : LiveResult :=
  if is_out_of_domain query then
    { answer := declineMessage, sources := [], rejected := true
      searchCalls := 0, generationCalls := 0 }
  else
    let sources := search_regulatory_sources query today
    if sources.isEmpty then
      { answer := noSourcesMessage, sources := [], rejected := false
        searchCalls := 1, generationCalls := 0 }
    else
      let pairs := enumFrom 1 sources
      let context_parts := pairs.map (fun p =>
        let short_snippet :=
          if decide (100 < strLen p.2.snippet) then strTake p.2.snippet 100 ++ "..."
          else p.2.snippet
        "[Source " ++ toString p.1 ++ "] " ++ short_snippet)
      let formatted_sources := pairs.map (fun p =>
        { id := p.1
          title :=
            if decide (50 < strLen p.2.title) then strTake p.2.title 50 ++ "..."
            else p.2.title
          url := p.2.url
          regulator := identify_regulatory_body p.2.domain : FormattedSource })
      let context := joinWith "\n" context_parts
      let system_prompt :=
        system_prompt_head ++ context ++ "\n\nAnswer the query clearly and concisely."
      match chat system_prompt query with
      | .ok raw =>
        let answer := strTrim raw
        let answer :=
          if decide (800 < strLen answer) then strTake answer 800 ++ "..." else answer
        { answer := answer, sources := formatted_sources, rejected := false
          searchCalls := 1, generationCalls := 1 }
      | .error e =>
        { answer := "Error: " ++ e, sources := formatted_sources, rejected := false
          searchCalls := 1, generationCalls := 1 }

end DynamicLlm

/- ===================== DYNAMIC_RAG pipeline =====================
   From src/dynamic_rag_fallback.py, class `DynamicRAGSystem`. -/

namespace DynamicRag

/-- Dataclass `DocumentSource`. -/
structure DocumentSource where
  content : String
  title : String
  url : String
  doc_type : String
  page_number : Option Nat := none
  date_accessed : Option String := none
deriving DecidableEq, Repr

/-- The fixed message of the no-sources branch (line 193). -/
def noSourcesMessage : String :=
  "I couldn't find relevant information for this query. Please contact BillMart support."

/-- Method `search_rbi_updates`: simulated regulatory updates; `today`
stands for `time.strftime('%Y-%m-%d')`. -/
def search_rbi_updates (query today : String) : List DocumentSource :=
  [ { content := "Recent RBI circular on " ++ query ++ " - Digital lending guidelines updated with enhanced KYC requirements and data localization norms."
      title := "RBI Circular - Digital Lending Guidelines 2024"
      url := "https://www.rbi.org.in/Scripts/NotificationUser.aspx?Id=12345"
      doc_type := "web"
      date_accessed := some today },
    { content := "Master Direction on " ++ query ++ " - Updated compliance requirements for NBFCs with specific focus on supply chain financing."
      title := "RBI Master Direction - NBFC Regulations"
      url := "https://www.rbi.org.in/Scripts/BS_ViewMasDirections.aspx?id=12346"
      doc_type := "web"
      date_accessed := some today } ]

/-- Method `search_regulatory_updates`: the RBI lookup, capped at 3. -/
def search_regulatory_updates (query today : String) : List DocumentSource :=
  (search_rbi_updates query today).take 3

/-- Method `hybrid_retrieval`: static ChromaDB results (abstracted as
`staticSearch`, which the source's `search_static_knowledge` makes total
by catching every exception into an empty list) followed by the dynamic
updates, capped at `k`; `k/2` is Python's floor division. -/
def hybrid_retrieval (staticSearch : String → Nat → List DocumentSource)
    (today query : String) (k : Nat) : List DocumentSource :=
  (staticSearch query (k / 2) ++ search_regulatory_updates query today).take k

/-- One citation of the response (dict key 'type' is `source_type`). -/
structure Citation where
  id : Nat
  title : String
  url : String
  source_type : String
  date_accessed : String
deriving DecidableEq, Repr

/-- Result of `generate_response_with_citations` plus a generation
counter; `error` mirrors the dict's 'error' key (present only on the
exception branch). -/
structure RagResult where
  answer : String
  sources : List Citation
  error : Option String := none
  generationCalls : Nat := 0
deriving DecidableEq, Repr

/-- The fixed head of the system prompt (lines 218-231). -/
def system_prompt_head : String :=
  "You are BillMart FinTech's regulatory compliance assistant with access to both internal knowledge and latest regulatory updates.\n\nINSTRUCTIONS:\n1. Answer using ONLY the provided sources\n2. Include inline citations [Source X] for every factual claim\n3. Prioritize recent regulatory updates over older information\n4. Structure your response professionally\n5. If sources conflict, mention the discrepancy\n6. Keep response under 300 words\n\nCONTEXT WITH SOURCES:\n"

/-- Method `generate_response_with_citations`
(src/dynamic_rag_fallback.py lines 182-263), with the SarvamAI chat call
abstracted (`.error e` models a raised exception with message `e`); the
pure timestamp and source-type tally metadata fields are omitted. -/
def generate_response_with_citations
    (staticSearch : String → Nat → List DocumentSource)
    (chat : String → String → Except String String)
    (today query : String) : RagResult :=
  let sources := hybrid_retrieval staticSearch today query 5
  if sources.isEmpty then
    { answer := noSourcesMessage, sources := [] }
  else
    let pairs := enumFrom 1 sources
    let context_parts := pairs.map (fun p =>
      let content_preview :=
        if decide (300 < strLen p.2.content) then strTake p.2.content 300 ++ "..."
        else p.2.content
      "[Source " ++ toString p.1 ++ "] " ++ content_preview)
    let citation_list := pairs.map (fun p =>
      { id := p.1
        title := p.2.title
        url := p.2.url
        source_type := p.2.doc_type
        date_accessed := p.2.date_accessed.getD "N/A" : Citation })
    let context := joinWith "\n\n" context_parts
    let system_prompt :=
      system_prompt_head ++ context ++ "\n\nProvide a comprehensive answer with proper citations."
    match chat system_prompt query with
    | .ok raw =>
      { answer := strTrim raw, sources := citation_list, generationCalls := 1 }
    | .error e =>
      { answer := "Error generating response: " ++ e, sources := citation_list
        error := some e, generationCalls := 1 }

end DynamicRag

/- ===================== HTTP fallback client =====================
   From src/actions/llm_fallback_http.py, class `BillMartRAGFallback`. -/

namespace HttpFallback

/-- The body of a 200 response from the LLM service's POST /generate
(src/llm_service.py `QueryResponse`). -/
structure ServiceResult where
  success : Bool
  answer : String
  error : Option String := none
  sources_used : Nat := 0
deriving DecidableEq, Repr

/-- Outcome of the HTTP POST: a 200 body, a non-200 status, or a raised
`requests.exceptions.RequestException` with its message. -/
inductive HttpOutcome where
  | ok (result : ServiceResult)
  | httpError (status : Nat)
  | requestFailed (msg : String)
deriving DecidableEq, Repr

/-- Method `_fallback_message`: the fixed contact-support message. -/
def fallback_message : String :=
  "I'm experiencing technical difficulties connecting to our knowledge base. \n\nPlease contact BillMart directly:\n📧 care@billmart.com\n📞 +91 93269 46663\n🌐 www.billmart.com\n\nOur team will be happy to assist you!"

/-- Method `generate_fallback_response` of the HTTP client
(src/actions/llm_fallback_http.py lines 34-68), over the outcome of the
POST request. -/
def generate_fallback_response (resp : HttpOutcome) : String :=
  match resp with
  | .ok r => if r.success then r.answer else fallback_message
  | .httpError _ => fallback_message
  | .requestFailed _ => fallback_message

end HttpFallback

/-- The fixed user-facing apologetic/contact-support messages appearing
in the repository's fallback paths (the "small fixed set" of the
propagation policy): the static no-context message, the dynamic-LLM
decline and no-sources messages, the dynamic-RAG no-sources message, the
HTTP client's contact message, and the generic technical-difficulties
message of src/actions/enhanced_actions.py line 97. -/
def fixedUserFacingMessages : List String :=
  [ LlmFallback.noContextMessage,
    DynamicLlm.declineMessage,
    DynamicLlm.noSourcesMessage,
    DynamicRag.noSourcesMessage,
    HttpFallback.fallback_message,
    "I'm having technical difficulties. Please try again!" ]

/- ===================== Claim theorems ===================== -/

/-- C3: the retry wrapper retries only on the rate-limited error kind: a
backend failing rate-limited on attempts 1 and 2 and succeeding on
attempt 3 yields the success value after exactly 3 invocations; any
other error kind propagates after exactly 1 invocation with no retry;
and 5 consecutive rate-limited failures raise the terminal
max-retries error, with the waits before the retries starting at 15 and
multiplying by 4 each time. -/
theorem retry_on_rate_limit_policy
    (f g h : Nat → Except String String) (v e1 e2 e3 : String)
    (hf0 : f 0 = .error e1) (hf1 : f 1 = .error e2) (hf2 : f 2 = .ok v)
    (hrl1 : isRateLimitError e1 = true) (hrl2 : isRateLimitError e2 = true)
    (hg0 : g 0 = .error e3) (hrl3 : isRateLimitError e3 = false)
    (hh : ∀ i, i < 5 → ∃ e, h i = .error e ∧ isRateLimitError e = true) :
    retry_on_rate_limit 5 15 f = ⟨.ok v, 3, [15, 60]⟩
    ∧ retry_on_rate_limit 5 15 g = ⟨.error e3, 1, []⟩
    ∧ retry_on_rate_limit 5 15 h =
        ⟨.error (maxRetriesMessage 5), 5, [15, 60, 240, 960, 3840]⟩ := by
  refine ⟨?_, ?_, ?_⟩
  · simp [retry_on_rate_limit, retryLoop, hf0, hf1, hf2, hrl1, hrl2]
  · simp [retry_on_rate_limit, retryLoop, hg0, hrl3]
  · obtain ⟨ea, ha, hra⟩ := hh 0 (by omega)
    obtain ⟨eb, hb, hrb⟩ := hh 1 (by omega)
    obtain ⟨ec, hc, hrc⟩ := hh 2 (by omega)
    obtain ⟨ed, hd, hrd⟩ := hh 3 (by omega)
    obtain ⟨ee, he, hre⟩ := hh 4 (by omega)
    simp [retry_on_rate_limit, retryLoop, ha, hb, hc, hd, he, hra, hrb, hrc, hrd, hre]

/-- C3 witness: concrete backends exercising all three parts of the
retry-policy theorem. -/
theorem retry_on_rate_limit_policy_witness :
    retry_on_rate_limit 5 15
        (fun i => if i < 2 then .error "rate limit" else .ok "answer")
      = ⟨.ok "answer", 3, [15, 60]⟩
    ∧ retry_on_rate_limit 5 15 (fun _ => .error "connection refused")
      = ⟨.error "connection refused", 1, []⟩
    ∧ retry_on_rate_limit 5 15 (fun _ => .error "HTTP 429 Too Many Requests")
      = ⟨.error (maxRetriesMessage 5), 5, [15, 60, 240, 960, 3840]⟩ :=
  retry_on_rate_limit_policy
    (fun i => if i < 2 then .error "rate limit" else .ok "answer")
    (fun _ => .error "connection refused")
    (fun _ => .error "HTTP 429 Too Many Requests")
    "answer" "rate limit" "rate limit" "connection refused"
    rfl rfl rfl (by decide) (by decide) rfl (by decide)
    (fun i _ => ⟨"HTTP 429 Too Many Requests", rfl, by decide⟩)

/-- C4: `userCategory` is changed only by a "declare_" intent (set to
the parsed declared value, UNKNOWN when unrecognized, never raising — the
parse is total) or by the "ask_loan_need" reset intent (forced to
UNKNOWN even when previously known); for every other intent it is
unchanged, and the right-hand side does not depend on the raw message,
so ambient keyword matching never changes it. -/
theorem update_user_type_characterization
    (st : MinimalConversationState) (intent : String) (ents : List Entity) (msg : String) :
    (update_from_intent st intent ents msg).user_type =
      (if pyStartswith intent "declare_" then
        (UserType.fromStr (declaredValue intent)).getD .unknown
      else if intent == "ask_loan_need" then .unknown
      else st.user_type) := by
  unfold update_from_intent
  cases hd : detect_product_from_message msg <;>
    cases hl : INTENT_PHASE_MAP.lookup intent <;>
      by_cases h1 : pyStartswith intent "declare_" = true <;>
        by_cases h2 : (intent == "ask_loan_need") = true <;>
          simp [h1, h2, hd, hl]

/-- C8: for every valid serialized state (the enum fields among their
enum value strings), deserializing and re-serializing returns the same
dictionary. -/
theorem serialize_deserialize_roundtrip (d : SerializedState)
    (hu : d.user_type ∈ ["individual", "business", "lender", "unknown"])
    (hp : d.conversation_phase ∈ ["initial", "exploring", "focused", "process", "applying"]) :
    ∃ st, from_dict d = some st ∧ to_dict st = d := by
  obtain ⟨ut, pf, cp, li⟩ := d
  simp only [List.mem_cons, List.not_mem_nil, or_false] at hu hp
  rcases hu with rfl | rfl | rfl | rfl <;>
    rcases hp with rfl | rfl | rfl | rfl | rfl <;>
      exact ⟨_, rfl, rfl⟩

/-- C8 witness: the round-trip at one concrete valid dictionary. -/
theorem serialize_deserialize_roundtrip_witness :
    ∃ st, from_dict ⟨"business", some "scf", "process", some "ask_process"⟩ = some st ∧
      to_dict st = ⟨"business", some "scf", "process", some "ask_process"⟩ :=
  serialize_deserialize_roundtrip
    ⟨"business", some "scf", "process", some "ask_process"⟩ (by decide) (by decide)

/-- C10: deserialization is not total — a dictionary whose "user_type"
is outside the enum values makes `from_dict` raise (modelled as `none`)
— in contrast to `update_from_intent`, which maps the same unrecognized
declared value fail-softly to UNKNOWN. -/
theorem from_dict_partial_vs_failsoft_update :
    from_dict ⟨"superman", none, "initial", none⟩ = none
    ∧ (update_from_intent {} "declare_superman" [] "").user_type = UserType.unknown := by
  exact ⟨rfl, by decide⟩

/-- C9: on the STATIC_RAG pipeline, whenever retrieval yields no context
(in particular with an empty knowledge index), `generate_fallback_response`
returns the fixed insufficient-information message and never invokes the
generation backend. -/
theorem static_rag_empty_context_short_circuit
    (retrieve : String → String) (chat : String → Option String) (query : String)
    (hempty : retrieve query = "") :
    LlmFallback.generate_fallback_response retrieve chat query =
      ⟨LlmFallback.noContextMessage, 1, 0⟩ := by
  unfold LlmFallback.generate_fallback_response
  rw [hempty]
  rfl

/-- C9 witness: an empty index (retrieval constantly empty) on an
in-domain query. -/
theorem static_rag_empty_context_short_circuit_witness :
    LlmFallback.generate_fallback_response (fun _ => "")
        (fun _ => some "ignored") "what are the KYC requirements for scf" =
      ⟨LlmFallback.noContextMessage, 1, 0⟩ :=
  static_rag_empty_context_short_circuit (fun _ => "")
    (fun _ => some "ignored") "what are the KYC requirements for scf" rfl

/-- C1 counterexample: the claim fails for STATIC_RAG. The query
"best cryptocurrency to invest" matches the blocklist, yet the
STATIC_RAG pipeline (which contains no domain gate at all) still invokes
the generation backend once and returns its answer instead of a decline
with a rejection flag. -/
theorem static_rag_no_domain_gate_cex :
    DynamicLlm.is_out_of_domain "best cryptocurrency to invest" = true
    ∧ (LlmFallback.generate_fallback_response
        (fun _ => "BillMart offers supply chain finance products.")
        (fun _ => some "Generated answer about crypto.")
        "best cryptocurrency to invest").generationCalls = 1
    ∧ (LlmFallback.generate_fallback_response
        (fun _ => "BillMart offers supply chain finance products.")
        (fun _ => some "Generated answer about crypto.")
        "best cryptocurrency to invest").answer = "Generated answer about crypto." := by
  exact ⟨by decide, rfl, rfl⟩

/-- C1 (amended): the out-of-domain gate exists only in the DYNAMIC_LLM
strategy: there, every blocklisted query returns immediately with
rejected=true and the fixed decline message, invoking neither the
source lookup nor the generation backend. -/
theorem domain_gate_dynamic_llm_only
    (chat : String → String → Except String String) (today query : String)
    (hq : DynamicLlm.is_out_of_domain query = true) :
    DynamicLlm.generate_response_with_live_sources chat today query =
      ⟨DynamicLlm.declineMessage, [], true, 0, 0⟩ := by
  unfold DynamicLlm.generate_response_with_live_sources
  rw [hq]
  rfl

/-- C1 witness: the blocklisted query of the spec's scenario, on the
DYNAMIC_LLM pipeline. -/
theorem domain_gate_dynamic_llm_only_witness :
    DynamicLlm.generate_response_with_live_sources (fun _ _ => .ok "x")
        "2025-01-01" "best cryptocurrency to invest" =
      ⟨DynamicLlm.declineMessage, [], true, 0, 0⟩ :=
  domain_gate_dynamic_llm_only (fun _ _ => .ok "x")
    "2025-01-01" "best cryptocurrency to invest" (by decide)

/-- C2 counterexample: when the generation backend raises with message
"boom", the DYNAMIC_RAG pipeline returns an answer embedding the raw
error text — an answer that contains "boom" and is outside the fixed set
of apologetic/contact-support messages. -/
theorem raw_error_text_reaches_user_cex :
    (DynamicRag.generate_response_with_citations (fun _ _ => [])
        (fun _ _ => .error "boom") "2025-01-01" "kyc rules for scf").answer
      = "Error generating response: boom"
    ∧ containsSub (DynamicRag.generate_response_with_citations (fun _ _ => [])
        (fun _ _ => .error "boom") "2025-01-01" "kyc rules for scf").answer "boom" = true
    ∧ (DynamicRag.generate_response_with_citations (fun _ _ => [])
        (fun _ _ => .error "boom") "2025-01-01" "kyc rules for scf").answer
        ∉ fixedUserFacingMessages := by
  exact ⟨rfl, by decide, by decide⟩

/-- C2 (amended): on the HTTP-client fallback path the user-facing
answer is either the service's generated answer or the fixed
contact-support message — in particular, transport exceptions and
service-reported errors never leak their text; the DYNAMIC_RAG and
DYNAMIC_LLM generation-failure branches, by contrast, embed the
exception text (see the counterexample). -/
theorem http_fallback_answer_policy (resp : HttpFallback.HttpOutcome) :
    (∃ r, resp = HttpFallback.HttpOutcome.ok r ∧ r.success = true ∧
        HttpFallback.generate_fallback_response resp = r.answer)
    ∨ HttpFallback.generate_fallback_response resp = HttpFallback.fallback_message := by
  cases resp with
  | ok r =>
    cases hs : r.success
    · right
      simp [HttpFallback.generate_fallback_response, hs]
    · left
      exact ⟨r, rfl, hs, by simp [HttpFallback.generate_fallback_response, hs]⟩
  | httpError s => right; rfl
  | requestFailed m => right; rfl

/-- C5 counterexample: with productFocus already "empcash", the message
"gig salary" gives gigcash and empcash the same score (1 each), yet
update changes productFocus to "gigcash": a mere tie with another
category does override the sticky focus. -/
theorem product_focus_tie_override_cex :
    catScore "gig salary" "gigcash" = catScore "gig salary" "empcash"
    ∧ (update_from_intent { product_focus := some "empcash" } "greet" [] "gig salary").product_focus
        = some "gigcash" := by
  exact ⟨by decide, by decide⟩

/-- C5 (amended): once productFocus is C it persists across an update
whenever every other category scores strictly below C (or zero) on the
message; and whenever it does change, some other category scored at
least C's score and at least 1 on the message (ties being resolved by
the fixed category ordering, ignoring the current focus). -/
theorem product_focus_sticky_amended
    (st : MinimalConversationState) (C intent : String) (ents : List Entity) (msg : String)
    (hC : st.product_focus = some C) :
    ((∀ D ∈ catNames, D ≠ C → catScore msg D < catScore msg C ∨ catScore msg D = 0) →
      (update_from_intent st intent ents msg).product_focus = some C)
    ∧ ((update_from_intent st intent ents msg).product_focus ≠ some C →
      ∃ D, D ∈ catNames ∧ D ≠ C ∧ catScore msg C ≤ catScore msg D ∧ 1 ≤ catScore msg D) := by
  constructor
  · intro hdom
    rw [update_product_focus]
    cases hd : detect_product_from_message msg with
    | none => exact hC
    | some D =>
      rcases detect_some_charac hd with ⟨hmem, hsc, hpos⟩
      by_cases hDC : D = C
      · rw [hDC]
      · exfalso
        rcases hdom D hmem hDC with hlt | hzero
        · by_cases hCmem : C ∈ catNames
          · have hle := catScore_le_maxScore msg hCmem
            omega
          · have h0 := catScore_zero_of_not_mem msg hCmem
            omega
        · omega
  · intro hne
    rw [update_product_focus] at hne
    cases hd : detect_product_from_message msg with
    | none =>
      rw [hd] at hne
      exact absurd hC hne
    | some D =>
      rw [hd] at hne
      have hDC : D ≠ C := fun h => hne (by rw [h])
      rcases detect_some_charac hd with ⟨hmem, hsc, hpos⟩
      refine ⟨D, hmem, hDC, ?_, by omega⟩
      by_cases hCmem : C ∈ catNames
      · have hle := catScore_le_maxScore msg hCmem
        omega
      · have h0 := catScore_zero_of_not_mem msg hCmem
        omega

/-- C5 witness: a state focused on "gigcash" and a message scoring
gigcash strictly above every other category keeps the focus. -/
theorem product_focus_sticky_amended_witness :
    (update_from_intent { product_focus := some "gigcash" } "greet" [] "i want gigcash").product_focus
      = some "gigcash" :=
  (product_focus_sticky_amended { product_focus := some "gigcash" }
    "gigcash" "greet" [] "i want gigcash" rfl).1 (by decide)

/-- C6: detection is deterministic under ties (it is a pure function of
the text), and whenever two distinct categories share the maximal
keyword score (at least 1), it returns the category appearing first in
the fixed documented ordering `catNames`: the returned Z achieves the
shared maximum and every category strictly earlier in the ordering
scores strictly below it. -/
theorem detect_product_tie_break_first
    (msg X Y : String)
    (hX : X ∈ catNames) (hY : Y ∈ catNames) (hXY : X ≠ Y)
    (hmax : ∀ W ∈ catNames, catScore msg W ≤ catScore msg X)
    (htie : catScore msg X = catScore msg Y)
    (hpos : 1 ≤ catScore msg X) :
    ∃ Z L1 L2, detect_product_from_message msg = some Z
      ∧ catScore msg Z = catScore msg X
      ∧ catNames = L1 ++ Z :: L2
      ∧ ∀ W ∈ L1, catScore msg W < catScore msg X := by
  have hXle : catScore msg X ≤ maxScore msg := catScore_le_maxScore msg hX
  have hle : maxScore msg ≤ catScore msg X := maxScore_le hmax
  rcases detect_first_max msg (by omega) with ⟨Z, L1, L2, hd, hs, hcat, hfirst⟩
  refine ⟨Z, L1, L2, hd, by omega, hcat, ?_⟩
  intro W hW
  have h1 : W ∈ catNames := by
    rw [hcat]; exact List.mem_append_left _ hW
  have h2 := hmax W h1
  have h3 := hfirst W hW
  omega

/-- C6 witness: "gig salary" ties gigcash and empcash at the maximal
score 1; detection returns gigcash, the first of the two in the fixed
ordering. -/
theorem detect_product_tie_break_first_witness :
    ∃ Z L1 L2, detect_product_from_message "gig salary" = some Z
      ∧ catScore "gig salary" Z = catScore "gig salary" "gigcash"
      ∧ catNames = L1 ++ Z :: L2
      ∧ ∀ W ∈ L1, catScore "gig salary" W < catScore "gig salary" "gigcash" :=
  detect_product_tie_break_first "gig salary" "gigcash" "empcash"
    (by decide) (by decide) (by decide) (by decide) (by decide) (by decide)

/-- C7 (code bug, evaluated at the failing input): "SME" is a keyword of
scf, the text "SME" contains it under case-insensitive matching and
contains no keyword of any other category, yet the detector scores scf 0
on it and returns none — because `_detect_product_from_message` compares
each keyword case-sensitively against the lowercased message (unlike the
sibling `_detect_user_type_from_message`, which lowercases keywords), so
the uppercase keywords can never match. -/
theorem detect_product_uppercase_keyword_dead :
    "SME" ∈ productKeywords "scf"
    ∧ containsSub (lowerStr "SME") (lowerStr "SME") = true
    ∧ (∀ c ∈ catNames, c ≠ "scf" → ∀ k ∈ productKeywords c,
        containsSub (lowerStr "SME") (lowerStr k) = false)
    ∧ catScore "SME" "scf" = 0
    ∧ detect_product_from_message "SME" = none := by
  exact ⟨by decide, by decide, by decide, by decide, by decide⟩
